import Mathlib

/-!
Shallow embedding of src/src/client/mod.rs of moproxy: the connection
admission state machine of a transparent TCP proxy.  Pure data and the
decision logic of each stage are translated directly from the source;
socket handles, the reactor handle and log calls carry no data relevant
to the claims and are modelled as opaque tokens or dropped.  The outcome
of each asynchronous effect (the timed hello read, the external racing
connector, the external copy engine) is passed in as an explicit
argument, so every function here is the source function seen as a map
from the resolved effect outcomes to its result.
-/

/-- Opaque token standing for a tokio TcpStream handle. -/
abbrev TcpStream : Type := Nat

/-- Opaque token standing for a tokio reactor Handle. -/
abbrev Handle : Type := Unit

/-- Host component of a logical destination.
Modelled from the spec: proxy::Destination (outside this source slice) is a
hostname-or-IP plus port; the host is either the IP recovered from the kernel
or a hostname taken from SNI. -/
inductive Hostname : Type where
  | ip (addr : Nat)
  | name (s : String)
deriving DecidableEq, Repr

/-- Modelled from the spec: proxy::Destination, a hostname-or-IP plus port.
In the source, retrive_dest rewrites it with (name, dest.port).into(). -/
structure Destination : Type where
  host : Hostname
  port : Nat
deriving DecidableEq, Repr

/-- IPv4 socket address: the numeric IPv4 value and the port, as produced by
SocketAddrV4::new in get_original_dest. -/
structure SocketAddrV4 : Type where
  ip : Nat
  port : Nat
deriving DecidableEq, Repr

/-- std SocketAddr: either V4 or V6.  The V6 payload is opaque; the code under
verification never builds one. -/
inductive SocketAddr : Type where
  | v4 (a : SocketAddrV4)
  | v6 (a : Nat)
deriving DecidableEq, Repr

/-- Modelled from the spec: one upstream server descriptor of monitor::ProxyServer,
with its tag and the two monotonic connection counters touched by serve. -/
structure ProxyServer : Type where
  tag : String
  stats_conn_open : Nat
  stats_conn_close : Nat
deriving DecidableEq, Repr

/-- Modelled from the spec: server.update_stats_conn_open() bumps the open
connection counter by one. -/
def update_stats_conn_open (s : ProxyServer) : ProxyServer :=
  { s with stats_conn_open := s.stats_conn_open + 1 }

/-- Modelled from the spec: server.update_stats_conn_close() bumps the close
connection counter by one. -/
def update_stats_conn_close (s : ProxyServer) : ProxyServer :=
  { s with stats_conn_close := s.stats_conn_close + 1 }

/-- Modelled from the spec: monitor::ServerList, the candidate list; the code
uses only its length and passes it through. -/
abbrev ServerList : Type := List ProxyServer

/-- Modelled from the spec: the record returned by tls::parse_client_hello,
with the two fields the source destructures (server_name, early_data). -/
structure TlsClientHello : Type where
  server_name : Option String
  early_data : Bool
deriving DecidableEq, Repr

/-- State NewClient from the source: the accepted socket, its peer address,
the recovered destination, the candidate list and the reactor handle. -/
structure NewClient : Type where
  left : TcpStream
  src : SocketAddr
  dest : Destination
  list : ServerList
  handle : Handle

/-- State NewClientWithData from the source: NewClient plus the sniffed bytes
and the replay-safety flag. -/
structure NewClientWithData : Type where
  left : TcpStream
  src : SocketAddr
  dest : Destination
  pending_data : List UInt8
  allow_parallel : Bool
  list : ServerList
  handle : Handle

/-- State ConnectedClient from the source: both sockets, peer address,
destination and the chosen server descriptor. -/
structure ConnectedClient : Type where
  left : TcpStream
  right : TcpStream
  src : SocketAddr
  dest : Destination
  server : ProxyServer
  handle : Handle

/-- Resolved outcome of the timed hello read in retrive_dest: the timer fired
first, the read failed with an I/O error (already logged and mapped to unit by
map_err), or the read completed with the 2048-byte buffer and the number of
bytes actually read. -/
inductive ReadOutcome : Type where
  | timeout
  | ioError (msg : String)
  | ok (buf : List UInt8) (len : Nat)

/-- NewClient::retrive_dest, lines 71-108 of the source: race a single read
against a 200 ms timer; on completion truncate the buffer to the bytes read,
try to parse a TLS Client Hello, rewrite the destination host from SNI when
present, and set allow_parallel from the parse result.  Both the timeout and a
read error flow through map_err and resolve the future to the unit error.
The external parser tls::parse_client_hello is passed in as a pure function. -/
def NewClient.retrive_dest (c : NewClient) (outcome : ReadOutcome)
    (parse_client_hello : List UInt8 → Except String TlsClientHello) :
    Except Unit NewClientWithData :=
  match outcome with
  | ReadOutcome.timeout => Except.error ()
  | ReadOutcome.ioError _ => Except.error ()
  | ReadOutcome.ok buf len =>
      let data := List.take len buf
      let parsed := parse_client_hello data
      let dest : Destination :=
        match parsed with
        | Except.error _ => c.dest
        | Except.ok hello =>
            match hello.server_name with
            | some name => { host := Hostname.name name, port := c.dest.port }
            | none => c.dest
      let allow_parallel : Bool :=
        match parsed with
        | Except.error _ => false
        | Except.ok _ => true
      Except.ok
        { left := c.left, src := c.src, dest := dest, list := c.list,
          handle := c.handle, allow_parallel := allow_parallel,
          pending_data := data }

/-- RcBox, lines 182-200 of the source: a reference-counted immutable holder
for a heap buffer.  The reference count has no observable effect on the held
value, so the Rc layer is modelled away and the wrapper holds the value
itself; new, clone and as_ref are translated one-to-one. -/
structure RcBox (T : Type) : Type where
  item : T
deriving DecidableEq, Repr

/-- RcBox::new, line 187. -/
def RcBox.new {T : Type} (item : T) : RcBox T :=
  { item := item }

/-- AsRef for RcBox, lines 191-195: expose a read-only view of the bytes. -/
def RcBox.as_ref {T : Type} (r : RcBox T) : T :=
  r.item

/-- Clone for RcBox, lines 196-200: clone the inner Rc, yielding another
handle to the same item (no copy of the bytes). -/
def RcBox.clone {T : Type} (r : RcBox T) : RcBox T :=
  { item := r.item }

/-- Argument record of one call to the external racing connector
client::connect::try_connect_all, in the order of the source call:
destination, server list, parallelism, the boolean flag (named from the spec
external-interface contract: replay_allowed), the optional shared payload and
the reactor handle. -/
structure TryConnectArgs : Type where
  dest : Destination
  list : ServerList
  n_parallel : Nat
  replay_allowed : Bool
  pending_data : Option (RcBox (List UInt8))
  handle : Handle

/-- Connectable for NewClient, lines 111-125: delegate to
try_connect_all(dest, list, 1, false, None, handle); the n_parallel argument
is ignored (bound as underscore in the source). -/
def NewClient.connect_server (c : NewClient) (_n_parallel : Nat) : TryConnectArgs :=
  { dest := c.dest, list := c.list, n_parallel := 1, replay_allowed := false,
    pending_data := none, handle := c.handle }

/-- Connectable for NewClientWithData, lines 127-149: wrap the pending data in
the shared handle, compute n_parallel as min(list.len(), n_parallel) when
allow_parallel else 1, and delegate to try_connect_all with the flag true. -/
def NewClientWithData.connect_server (c : NewClientWithData) (n_parallel : Nat) :
    TryConnectArgs :=
  let n := if c.allow_parallel then min c.list.length n_parallel else 1
  { dest := c.dest, list := c.list, n_parallel := n, replay_allowed := true,
    pending_data := some (RcBox.new c.pending_data), handle := c.handle }

/-- An io::Error as produced at the boundaries of this slice: either built
from a raw OS errno (io::Error::from on nix::Error::Sys) or an Other-kind
error wrapping a message. -/
inductive IoError : Type where
  | fromRawOsError (errno : Nat)
  | other (msg : String)
deriving DecidableEq, Repr

/-- Observable step of ConnectedClient::serve, in the order the source
performs them: the keep-alive configuration of both sockets, the open-counter
bump, the delegation to the external copy engine pipe (carrying the engine
result), and the close-counter bump. -/
inductive ServeEvent : Type where
  | set_keepalive (left right : TcpStream) (secs : Nat)
  | conn_open (tag : String)
  | pipe (result : Except IoError (Nat × Nat))
  | conn_close (tag : String)

/-- Result of one run of ConnectedClient::serve: the ordered trace of its
observable steps, the server descriptor with its counters updated, and the
value the returned future resolves to. -/
structure ServeOutcome : Type where
  trace : List ServeEvent
  server : ProxyServer
  result : Except Unit Unit

/-- ConnectedClient::serve, lines 151-180 of the source: set a 300 second
keep-alive on both sockets (a failure is only logged: the keep-alive outcome
argument is not consumed beyond that log, which the model drops), bump the
open counter, delegate to the external copy engine, and in both arms of the
match on the engine result bump the close counter; the Ok arm resolves to unit
and the Err arm to the unit error, dropping the byte counts and the I/O
error. -/
def ConnectedClient.serve (c : ConnectedClient)
    (_keepalive_outcome : Except IoError Unit)
    (pipe_result : Except IoError (Nat × Nat)) : ServeOutcome :=
  let server := update_stats_conn_open c.server
  match pipe_result with
  | Except.ok (tx, rx) =>
      { trace := [ServeEvent.set_keepalive c.left c.right 300,
                  ServeEvent.conn_open server.tag,
                  ServeEvent.pipe (Except.ok (tx, rx)),
                  ServeEvent.conn_close server.tag],
        server := update_stats_conn_close server,
        result := Except.ok () }
  | Except.error e =>
      { trace := [ServeEvent.set_keepalive c.left c.right 300,
                  ServeEvent.conn_open server.tag,
                  ServeEvent.pipe (Except.error e),
                  ServeEvent.conn_close server.tag],
        server := update_stats_conn_close server,
        result := Except.error () }

/-- Predicate picking the open-counter events of a serve trace. -/
def isConnOpen : ServeEvent → Bool
  | ServeEvent.conn_open _ => true
  | _ => false

/-- Predicate picking the close-counter events of a serve trace. -/
def isConnClose : ServeEvent → Bool
  | ServeEvent.conn_close _ => true
  | _ => false

/-- The nix error returned by getsockopt, line 203: a raw OS errno
(nix::Error::Sys) or some other nix-level failure. -/
inductive NixError : Type where
  | sys (errno : Nat)
  | other (msg : String)
deriving DecidableEq, Repr

/-- The sockaddr_in record the kernel reports for SO_ORIGINAL_DST: the
address and port fields as read on the (little-endian) host, still in network
byte order. -/
structure SockaddrIn : Type where
  sin_addr_s_addr : Nat
  sin_port : Nat
deriving DecidableEq, Repr

/-- u32::to_be on the little-endian hosts this code targets: reverse the four
bytes of the 32-bit value. -/
def u32_to_be (x : Nat) : Nat :=
  let b0 := x % 256
  let b1 := x / 256 % 256
  let b2 := x / 65536 % 256
  let b3 := x / 16777216 % 256
  ((b0 * 256 + b1) * 256 + b2) * 256 + b3

/-- u16::to_be on the little-endian hosts this code targets: swap the two
bytes of the 16-bit value. -/
def u16_to_be (x : Nat) : Nat :=
  (x % 256) * 256 + x / 256 % 256

/-- get_original_dest, lines 202-212 of the source: convert the getsockopt
outcome; on success build an IPv4 socket address from the byte-order-converted
kernel values (the TODO comment marks IPv6 as unsupported), on failure map the
nix error into an io::Error and propagate it. -/
def get_original_dest (sockopt_result : Except NixError SockaddrIn) :
    Except IoError SocketAddr :=
  match sockopt_result with
  | Except.error (NixError.sys errno) => Except.error (IoError.fromRawOsError errno)
  | Except.error (NixError.other msg) => Except.error (IoError.other msg)
  | Except.ok addr =>
      Except.ok (SocketAddr.v4
        { ip := u32_to_be (addr.sin_addr_s_addr % 4294967296),
          port := u16_to_be (addr.sin_port % 65536) })

/-- A concrete upstream server used to evaluate the model at specific inputs. -/
def exampleServer : ProxyServer :=
  { tag := "proxy1", stats_conn_open := 0, stats_conn_close := 0 }

/-- A concrete accepted connection in the NewClient state. -/
def exampleClient : NewClient :=
  { left := 0, src := SocketAddr.v4 { ip := 16909060, port := 40000 },
    dest := { host := Hostname.ip 16843009, port := 443 },
    list := [exampleServer], handle := () }

/-- A concrete client in the NewClientWithData state. -/
def exampleClientWithData : NewClientWithData :=
  { left := 0, src := SocketAddr.v4 { ip := 16909060, port := 40000 },
    dest := { host := Hostname.name "example.com", port := 443 },
    pending_data := [22, 3, 1], allow_parallel := true,
    list := [exampleServer, exampleServer], handle := () }

/-- The zero-initialised 2048-byte read buffer allocated by retrive_dest. -/
def helloBuf : List UInt8 := List.replicate 2048 0

/-- An external parser outcome standing for non-TLS bytes: reject everything. -/
def rejectHello : List UInt8 → Except String TlsClientHello :=
  fun _ => Except.error "not a client hello"

/-- A concrete parsed client hello carrying the SNI name example.com. -/
def exampleHello : TlsClientHello :=
  { server_name := some "example.com", early_data := false }

/-- An external parser outcome standing for a well-formed hello with SNI. -/
def acceptSni : List UInt8 → Except String TlsClientHello :=
  fun _ => Except.ok exampleHello

/-- C1, counterexample: when the hello read exceeds the 200 ms timeout with
zero bytes received, the state does NOT transition to NewClientWithData: at a
concrete client, retrive_dest resolves to the unit error and yields no
NewClientWithData at all, so the connection does not proceed from this
stage. -/
theorem retrive_dest_timeout_drops_connection_cex :
    NewClient.retrive_dest exampleClient ReadOutcome.timeout rejectHello
      = Except.error () ∧
    ¬ ∃ w : NewClientWithData,
        NewClient.retrive_dest exampleClient ReadOutcome.timeout rejectHello
          = Except.ok w := by
  refine ⟨rfl, ?_⟩
  rintro ⟨w, h⟩
  simp [NewClient.retrive_dest] at h

/-- C1 (amended): if the 200 ms timeout elapses before the hello read
completes, or the read fails with an I/O error, retrive_dest is not a
fallback: after logging, the returned future resolves to the unit error, no
NewClientWithData is produced, and the connection is abandoned at this
stage. -/
theorem retrive_dest_timeout_or_error_fails
    (c : NewClient) (parse : List UInt8 → Except String TlsClientHello)
    (msg : String) :
    NewClient.retrive_dest c ReadOutcome.timeout parse = Except.error () ∧
    NewClient.retrive_dest c (ReadOutcome.ioError msg) parse
      = Except.error () :=
  ⟨rfl, rfl⟩

/-- C2: when the read completes within the timeout and the bytes parse as a
TLS Client Hello, retrive_dest yields a NewClientWithData whose allow_parallel
is true and whose destination keeps the port recovered before sniffing; if
the hello carries SNI h the destination host is rewritten to h, and if it
carries no SNI the destination is unchanged. -/
theorem retrive_dest_hello_sni_rewrite
    (c : NewClient) (buf : List UInt8) (len : Nat)
    (parse : List UInt8 → Except String TlsClientHello)
    (hello : TlsClientHello)
    (hp : parse (List.take len buf) = Except.ok hello) :
    ∃ w : NewClientWithData,
      NewClient.retrive_dest c (ReadOutcome.ok buf len) parse = Except.ok w ∧
      w.allow_parallel = true ∧
      w.dest.port = c.dest.port ∧
      (∀ h : String, hello.server_name = some h →
        w.dest.host = Hostname.name h) ∧
      (hello.server_name = none → w.dest = c.dest) := by
  refine ⟨{ left := c.left, src := c.src,
            dest := match hello.server_name with
              | some nm => { host := Hostname.name nm, port := c.dest.port }
              | none => c.dest,
            list := c.list, handle := c.handle, allow_parallel := true,
            pending_data := List.take len buf }, ?_, rfl, ?_, ?_, ?_⟩
  · simp [NewClient.retrive_dest, hp]
  · cases hsn : hello.server_name with
    | some nm => simp [hsn]
    | none => simp [hsn]
  · intro h hh
    simp [hh]
  · intro hn
    simp [hn]

/-- C2, witness: a concrete hello with SNI example.com read into the concrete
client rewrites the host to example.com, keeps port 443 and allows parallel
connect attempts. -/
theorem retrive_dest_hello_sni_rewrite_witness :
    ∃ w : NewClientWithData,
      NewClient.retrive_dest exampleClient (ReadOutcome.ok helloBuf 5) acceptSni
        = Except.ok w ∧
      w.allow_parallel = true ∧
      w.dest.port = exampleClient.dest.port ∧
      (∀ h : String, exampleHello.server_name = some h →
        w.dest.host = Hostname.name h) ∧
      (exampleHello.server_name = none → w.dest = exampleClient.dest) :=
  retrive_dest_hello_sni_rewrite exampleClient helloBuf 5 acceptSni
    exampleHello rfl

/-- C3: when the read completes within the timeout but the bytes fail Client
Hello parsing, retrive_dest yields a NewClientWithData whose pending_data is
exactly the 2048-byte buffer truncated to the read length (no padding), whose
allow_parallel is false, and whose destination is the one recovered before
sniffing. -/
theorem retrive_dest_parse_failure_keeps_data
    (c : NewClient) (buf : List UInt8) (len : Nat)
    (parse : List UInt8 → Except String TlsClientHello) (msg : String)
    (hbuf : buf.length = 2048)
    (hp : parse (List.take len buf) = Except.error msg) :
    ∃ w : NewClientWithData,
      NewClient.retrive_dest c (ReadOutcome.ok buf len) parse = Except.ok w ∧
      w.pending_data = List.take len buf ∧
      w.allow_parallel = false ∧
      w.dest = c.dest := by
  refine ⟨{ left := c.left, src := c.src, dest := c.dest, list := c.list,
            handle := c.handle, allow_parallel := false,
            pending_data := List.take len buf }, ?_, rfl, rfl, rfl⟩
  simp [NewClient.retrive_dest, hp]

/-- C3, witness: five bytes of non-TLS data read into the 2048-byte buffer on
the concrete client are kept verbatim as pending_data with allow_parallel
false and the destination untouched. -/
theorem retrive_dest_parse_failure_keeps_data_witness :
    helloBuf.length = 2048 ∧
    ∃ w : NewClientWithData,
      NewClient.retrive_dest exampleClient (ReadOutcome.ok helloBuf 5)
        rejectHello = Except.ok w ∧
      w.pending_data = List.take 5 helloBuf ∧
      w.allow_parallel = false ∧
      w.dest = exampleClient.dest :=
  ⟨by rw [helloBuf, List.length_replicate],
   retrive_dest_parse_failure_keeps_data exampleClient helloBuf 5 rejectHello
     "not a client hello" (by rw [helloBuf, List.length_replicate]) rfl⟩

/-- C4: from NewClientWithData, the parallelism handed to the racing
connector is min(candidate count, n_parallel) when allow_parallel is true and
exactly 1 when it is false. -/
theorem connect_server_with_data_parallelism
    (c : NewClientWithData) (n_parallel : Nat) (hn : 1 ≤ n_parallel) :
    (c.allow_parallel = true →
      (c.connect_server n_parallel).n_parallel
        = min c.list.length n_parallel) ∧
    (c.allow_parallel = false →
      (c.connect_server n_parallel).n_parallel = 1) := by
  constructor
  · intro h
    simp [NewClientWithData.connect_server, h]
  · intro h
    simp [NewClientWithData.connect_server, h]

/-- C4, witness: the concrete sniffed client with two candidate servers and
allow_parallel true, asked for n_parallel = 3, races min 2 3 = 2 attempts. -/
theorem connect_server_with_data_parallelism_witness :
    1 ≤ 3 ∧
    ((exampleClientWithData.allow_parallel = true →
      (exampleClientWithData.connect_server 3).n_parallel
        = min exampleClientWithData.list.length 3) ∧
     (exampleClientWithData.allow_parallel = false →
      (exampleClientWithData.connect_server 3).n_parallel = 1)) :=
  ⟨by decide,
   connect_server_with_data_parallelism exampleClientWithData 3 (by decide)⟩

/-- C5: from NewClient, connect_server always hands the racing connector
parallelism 1, no shared payload and replay flag false; its n_parallel
argument has no effect on the call. -/
theorem connect_server_newclient_sequential (c : NewClient) (n m : Nat) :
    (c.connect_server n).n_parallel = 1 ∧
    (c.connect_server n).pending_data = none ∧
    (c.connect_server n).replay_allowed = false ∧
    c.connect_server n = c.connect_server m :=
  ⟨rfl, rfl, rfl, rfl⟩

/-- C6: serve bumps the chosen server open counter exactly once before
delegating to the copy engine and the close counter exactly once after the
copy ends, on both the success and the failure branch: the trace holds exactly
one open event, immediately before the pipe step, and exactly one close event,
immediately after it, and the server counters each grow by one. -/
theorem serve_counts_open_close_once (c : ConnectedClient)
    (ka : Except IoError Unit) (pr : Except IoError (Nat × Nat)) :
    (c.serve ka pr).server.stats_conn_open = c.server.stats_conn_open + 1 ∧
    (c.serve ka pr).server.stats_conn_close = c.server.stats_conn_close + 1 ∧
    List.countP isConnOpen (c.serve ka pr).trace = 1 ∧
    List.countP isConnClose (c.serve ka pr).trace = 1 ∧
    (c.serve ka pr).trace =
      [ServeEvent.set_keepalive c.left c.right 300,
       ServeEvent.conn_open (update_stats_conn_open c.server).tag,
       ServeEvent.pipe pr,
       ServeEvent.conn_close (update_stats_conn_open c.server).tag] := by
  cases pr with
  | error e => exact ⟨rfl, rfl, rfl, rfl, rfl⟩
  | ok p =>
      obtain ⟨tx, rx⟩ := p
      exact ⟨rfl, rfl, rfl, rfl, rfl⟩

/-- C7: serve configures a 300 second keep-alive on both sockets as its first
step, its whole outcome is invariant under the keep-alive result (a failure
to set keep-alive is non-fatal), and its result is the unit success on a
successful copy and the unit error on a failed copy, for every byte count and
every I/O error: neither is propagated to the caller. -/
theorem serve_keepalive_nonfatal_uniform_result (c : ConnectedClient)
    (ka ka2 : Except IoError Unit) (pr : Except IoError (Nat × Nat))
    (tx rx : Nat) (e : IoError) :
    c.serve ka pr = c.serve ka2 pr ∧
    (∃ rest : List ServeEvent,
      (c.serve ka pr).trace
        = ServeEvent.set_keepalive c.left c.right 300 :: rest) ∧
    (c.serve ka (Except.ok (tx, rx))).result = Except.ok () ∧
    (c.serve ka (Except.error e)).result = Except.error () := by
  refine ⟨rfl, ?_, rfl, rfl⟩
  cases pr with
  | error e2 => exact ⟨_, rfl⟩
  | ok p =>
      obtain ⟨tx2, rx2⟩ := p
      exact ⟨_, rfl⟩

/-- C8: reading through any number of clones of the shared-payload handle via
as_ref yields exactly the wrapped bytes, and a clone is the very same handle
value (the model of a reference-count bump on the same underlying buffer, not
a copy); the wrapper exposes no operation that mutates the buffer. -/
theorem rcbox_clone_readonly_identical (buf : List UInt8) (n : Nat) :
    RcBox.as_ref (Nat.iterate RcBox.clone n (RcBox.new buf)) = buf ∧
    ∀ r : RcBox (List UInt8), RcBox.clone r = r := by
  have hfix : ∀ r : RcBox (List UInt8), RcBox.clone r = r := fun r => rfl
  refine ⟨?_, hfix⟩
  have hiter : Nat.iterate RcBox.clone n (RcBox.new buf) = RcBox.new buf :=
    Function.iterate_fixed (hfix (RcBox.new buf)) n
  rw [hiter]
  rfl

/-- C9: get_original_dest maps a successful kernel query to an IPv4 socket
address whose address and port are the kernel-reported values converted from
network byte order (the port converted and otherwise untouched), never
returns an IPv6 address on any input, and propagates a failed kernel query as
an error to the caller. -/
theorem get_original_dest_v4_byteorder (a : SockaddrIn) (e : NixError) :
    get_original_dest (Except.ok a) =
      Except.ok (SocketAddr.v4
        { ip := u32_to_be (a.sin_addr_s_addr % 4294967296),
          port := u16_to_be (a.sin_port % 65536) }) ∧
    (∀ r : Except NixError SockaddrIn, ∀ x : Nat,
        get_original_dest r ≠ Except.ok (SocketAddr.v6 x)) ∧
    (∃ ioerr : IoError,
        get_original_dest (Except.error e) = Except.error ioerr) := by
  refine ⟨rfl, ?_, ?_⟩
  · intro r x h
    cases r with
    | ok a2 => simp [get_original_dest] at h
    | error e2 =>
        cases e2 with
        | sys errno => simp [get_original_dest] at h
        | other msg => simp [get_original_dest] at h
  · cases e with
    | sys errno => exact ⟨IoError.fromRawOsError errno, rfl⟩
    | other msg => exact ⟨IoError.other msg, rfl⟩

/-- C10: NewClientWithData.connect_server hands the racing connector the
boolean flag true unconditionally, with the pending data always wrapped as a
shared payload, while NewClient.connect_server hands it false with no
payload: the flag signals the presence of pending data, not that parallel
replay was judged safe. -/
theorem connect_server_replay_flag_semantics
    (cw : NewClientWithData) (c : NewClient) (n m : Nat) :
    (cw.connect_server n).replay_allowed = true ∧
    (c.connect_server m).replay_allowed = false ∧
    (cw.connect_server n).pending_data = some (RcBox.new cw.pending_data) ∧
    (c.connect_server m).pending_data = none :=
  ⟨rfl, rfl, rfl, rfl⟩
